import Mathlib

/-
  Verification development for the Clippy collaborative clipboard.

  The repository ships the frontend (React) sources; the backend (FastAPI)
  is described by the specification. Frontend functions are embedded from
  the source files under frontend/src; backend registry, ledger and sweeper
  operations are modelled from the specification text, as marked on each
  definition.
-/

namespace Clippy

/-- JavaScript truthiness of an optional string: undefined, null and the
empty string are falsy. -/
def jsTruthyStr (s : Option String) : Bool :=
  match s with
  | none => false
  | some v => v != ""

/-- JavaScript `a || b` on an optional string with a string default. -/
def jsOrStr (s : Option String) (d : String) : String :=
  match s with
  | none => d
  | some v => if v != "" then v else d

/-- A user record as the frontend receives it: id, display name and host
flag (fields used by ClipboardInterface.jsx and Menu.jsx). -/
structure User where
  id : Nat
  name : String
  is_host : Bool
deriving DecidableEq

/-- A content block as the frontend receives it (fields used by
ClipboardInterface.jsx and BlockItem.jsx). -/
structure Block where
  id : Nat
  type : String
  content : String
deriving DecidableEq

/-- The session object held in ClipboardInterface state (fields mutated by
the WebSocket handler: host_id and allow_join). -/
structure SessionInfo where
  host_id : Nat
  allow_join : Bool
deriving DecidableEq

/-- The ClipboardInterface component state touched by the WebSocket
handler: users, blocks and session. -/
structure ClientState where
  users : List User
  blocks : List Block
  session : SessionInfo
deriving DecidableEq

/-- An incoming WebSocket message: a type tag plus the payload fields read
by the handler cases in ClipboardInterface.jsx. -/
structure WsMessage where
  type : String
  user : User
  user_id : Nat
  block : Block
  block_id : Nat
  new_host_id : Nat
  allow_join : Bool
deriving DecidableEq

/-- Side effects of the handler other than state updates: notifications
(showNotification) and the scheduled page reload. -/
inductive Effect where
  | notify (text : String)
  | reloadPage
deriving DecidableEq

/-- Embedding of handleWebSocketMessage from ClipboardInterface.jsx:
a switch on message.type updating users, blocks and session state and
producing notification effects; unmatched types fall through unchanged. -/
def handleWebSocketMessage (myUserId : Nat) (st : ClientState) (msg : WsMessage) :
    ClientState × List Effect :=
  if msg.type = "user_joined" then
    ({ st with users := st.users ++ [msg.user] },
      [Effect.notify (msg.user.name ++ " joined the session")])
  else if msg.type = "user_left" then
    ({ st with users := st.users.filter (fun u => u.id != msg.user_id) },
      match st.users.find? (fun u => u.id == msg.user_id) with
      | some leftUser => [Effect.notify (leftUser.name ++ " left the session")]
      | none => [])
  else if msg.type = "block_created" then
    ({ st with blocks := st.blocks ++ [msg.block] }, [])
  else if msg.type = "block_deleted" then
    ({ st with blocks := st.blocks.filter (fun b => b.id != msg.block_id) }, [])
  else if msg.type = "host_transferred" then
    ({ st with
        users := st.users.map (fun u => { u with is_host := u.id == msg.new_host_id }),
        session := { st.session with host_id := msg.new_host_id } },
      if msg.new_host_id = myUserId then [Effect.notify "You are now the host"] else [])
  else if msg.type = "join_permission_changed" then
    ({ st with session := { st.session with allow_join := msg.allow_join } }, [])
  else if msg.type = "session_destroyed" then
    (st, [Effect.notify "Session has been destroyed", Effect.reloadPage])
  else (st, [])

/-- Embedding of the onmessage callback in useWebSocket.js: parse the frame
and forward it to the handler unless its type is a pong. -/
def onSocketMessage (myUserId : Nat) (st : ClientState) (msg : WsMessage) :
    ClientState × List Effect :=
  if msg.type != "pong" then handleWebSocketMessage myUserId st msg else (st, [])

/-- The seven event type tags of the broadcast taxonomy (spec section 4.3),
exactly the cases of the switch in ClipboardInterface.jsx. -/
def eventTypes : List String :=
  ["user_joined", "user_left", "block_created", "block_deleted",
   "host_transferred", "join_permission_changed", "session_destroyed"]

/-- The closed tagged variant of event kinds that the spec (section 9)
asks the dispatch to be modelled by. -/
inductive EventKind where
  | userJoined
  | userLeft
  | blockCreated
  | blockDeleted
  | hostTransferred
  | joinPermissionChanged
  | sessionDestroyed
deriving DecidableEq

/-- The wire tag of each event kind. -/
def eventTag : EventKind → String
  | EventKind.userJoined => "user_joined"
  | EventKind.userLeft => "user_left"
  | EventKind.blockCreated => "block_created"
  | EventKind.blockDeleted => "block_deleted"
  | EventKind.hostTransferred => "host_transferred"
  | EventKind.joinPermissionChanged => "join_permission_changed"
  | EventKind.sessionDestroyed => "session_destroyed"

/-- Recognise a wire tag as one of the seven event kinds; any other string
is outside the closed variant. -/
def parseEventTag (s : String) : Option EventKind :=
  if s = "user_joined" then some EventKind.userJoined
  else if s = "user_left" then some EventKind.userLeft
  else if s = "block_created" then some EventKind.blockCreated
  else if s = "block_deleted" then some EventKind.blockDeleted
  else if s = "host_transferred" then some EventKind.hostTransferred
  else if s = "join_permission_changed" then some EventKind.joinPermissionChanged
  else if s = "session_destroyed" then some EventKind.sessionDestroyed
  else none

/-- Error taxonomy of the specification (section 7). -/
inductive ApiError where
  | NotFound
  | Forbidden
  | JoinDisabled
  | PayloadTooLarge
  | Conflict
deriving DecidableEq

/-- Block kinds (spec section 3). -/
inductive BlockKind where
  | text
  | file
deriving DecidableEq

/-- Modelled from the spec: a ledger Block of the backend (absent from src),
identified by an id unique within its session, with kind, size, creator
reference and creation timestamp (spec section 3). -/
structure LBlock where
  id : Nat
  kind : BlockKind
  size : Nat
  creator : Nat
  created_at : Nat
deriving DecidableEq

/-- Modelled from the spec: the per-session Block Ledger of the backend
(absent from src): an append-only ordered sequence together with the next
id to assign, so that ids increase monotonically (spec section 4.2). -/
structure Ledger where
  nextId : Nat
  blocks : List LBlock
deriving DecidableEq

/-- The ledger of a freshly created session. -/
def Ledger.empty : Ledger := ⟨0, []⟩

/-- Modelled from the spec: append of the backend Block Ledger (absent from
src): assigns a monotonically increasing id, enforces the configured
max-size limit for file blocks (PayloadTooLarge otherwise) and appends to
the ordered sequence (spec section 4.2). -/
def Ledger.appendBlock (l : Ledger) (maxSize : Nat) (k : BlockKind)
    (size creator now : Nat) : Except ApiError (Ledger × Nat) :=
  if k = BlockKind.file ∧ maxSize < size then Except.error ApiError.PayloadTooLarge
  else Except.ok (⟨l.nextId + 1, l.blocks ++ [⟨l.nextId, k, size, creator, now⟩]⟩, l.nextId)

/-- Modelled from the spec: remove of the backend Block Ledger (absent from
src): fails NotFound if the id is absent, otherwise removes the block from
the sequence, leaving a gap (spec section 4.2). -/
def Ledger.removeBlock (l : Ledger) (bid : Nat) : Except ApiError Ledger :=
  if l.blocks.any (fun b => b.id == bid) then
    Except.ok ⟨l.nextId, l.blocks.filter (fun b => b.id != bid)⟩
  else Except.error ApiError.NotFound

/-- Modelled from the spec: a backend Session (absent from src): host id,
allow_join flag, timestamps, ordered users and the Block Ledger (spec
section 3). -/
structure Session where
  host_id : Nat
  allow_join : Bool
  created_at : Nat
  last_activity : Nat
  users : List User
  ledger : Ledger
deriving DecidableEq

/-- Modelled from the spec: the process-wide session registry (absent from
src), mapping 6-character ids to sessions. -/
abbrev Registry := List (String × Session)

/-- Look a session up by id in the registry. -/
def lookupSession (reg : Registry) (sid : String) : Option Session :=
  match reg.find? (fun p => p.1 == sid) with
  | some p => some p.2
  | none => none

/-- Replace the session stored under an id. -/
def updateSession (reg : Registry) (sid : String) (s : Session) : Registry :=
  reg.map (fun p => if p.1 == sid then (p.1, s) else p)

/-- A get snapshot: users, blocks, host and allow_join (spec section 4.1). -/
structure Snapshot where
  host_id : Nat
  allow_join : Bool
  users : List User
  blocks : List LBlock
deriving DecidableEq

/-- Modelled from the spec: get of the backend Session Registry (absent
from src): returns a snapshot of the session, failing NotFound for an
unknown id (spec section 4.1). -/
def Registry.get (reg : Registry) (sid : String) : Except ApiError Snapshot :=
  match lookupSession reg sid with
  | none => Except.error ApiError.NotFound
  | some s => Except.ok ⟨s.host_id, s.allow_join, s.users, s.ledger.blocks⟩

/-- Modelled from the spec: join of the backend Session Registry (absent
from src): fails NotFound if the id is unknown, JoinDisabled if allow_join
is false; on success appends a new non-host User and refreshes activity
(spec section 4.1). -/
def Registry.join (reg : Registry) (sid : String) (newUserId : Nat)
    (name : String) (now : Nat) : Except ApiError (Registry × User) :=
  match lookupSession reg sid with
  | none => Except.error ApiError.NotFound
  | some s =>
    if s.allow_join then
      Except.ok
        (updateSession reg sid
          { s with users := s.users ++ [⟨newUserId, name, false⟩], last_activity := now },
         ⟨newUserId, name, false⟩)
    else Except.error ApiError.JoinDisabled

/-- The broadcast event taxonomy of the backend (spec section 4.3). -/
inductive SEvent where
  | user_joined (u : User)
  | user_left (user_id : Nat)
  | block_created (b : LBlock)
  | block_deleted (block_id : Nat)
  | host_transferred (new_host_id : Nat)
  | join_permission_changed (allow_join : Bool)
  | session_destroyed
deriving DecidableEq

/-- Modelled from the spec: transferHost of the backend Session Registry
(absent from src): fails Forbidden unless the requester is the current
host, NotFound unless the target is a current member; otherwise atomically
flips is_host on both users, refreshes activity and emits one
host_transferred event carrying the new host id (spec sections 4.1, 8). -/
def Session.transferHost (s : Session) (requesterId targetId now : Nat) :
    Except ApiError (Session × SEvent) :=
  if s.users.any (fun u => u.id == requesterId && u.is_host) then
    if s.users.any (fun u => u.id == targetId) then
      Except.ok
        ({ s with
            host_id := targetId,
            last_activity := now,
            users := s.users.map (fun u =>
              if u.id == requesterId then { u with is_host := false }
              else if u.id == targetId then { u with is_host := true }
              else u) },
          SEvent.host_transferred targetId)
    else Except.error ApiError.NotFound
  else Except.error ApiError.Forbidden

/-- Modelled from the spec: the Eviction Sweeper of the backend (absent
from src): destroys every session whose last-activity timestamp exceeds
the configured threshold (spec sections 4.5, 8). -/
def Registry.sweep (reg : Registry) (now threshold : Nat) : Registry :=
  reg.filter (fun p => now - p.2.last_activity ≤ threshold)

/-- Number of users whose host flag is set. -/
def hostCount (us : List User) : Nat := (us.filter (fun u => u.is_host)).length

/-- A ledger operation of a session trace: a block append or a block
removal. -/
inductive LedgerOp where
  | append (kind : BlockKind) (size creator now : Nat)
  | remove (bid : Nat)

/-- Run a sequence of ledger operations, collecting in order the block ids
assigned by the successful appends; failed operations leave the ledger
unchanged. -/
def runLedger (maxSize : Nat) : Ledger → List LedgerOp → Ledger × List Nat
  | l, [] => (l, [])
  | l, LedgerOp.append k size creator now :: ops =>
    match l.appendBlock maxSize k size creator now with
    | Except.ok (l', bid) => ((runLedger maxSize l' ops).1, bid :: (runLedger maxSize l' ops).2)
    | Except.error _ => runLedger maxSize l ops
  | l, LedgerOp.remove bid :: ops =>
    match l.removeBlock bid with
    | Except.ok l' => runLedger maxSize l' ops
    | Except.error _ => runLedger maxSize l ops

/-- The join response data the frontend reads: session id, user id, user
name and host flag (api.js). -/
structure JoinData where
  session_id : String
  user_id : Nat
  user_name : String
  is_host : Bool
deriving DecidableEq

/-- An HTTP response as joinSession observes it: the ok flag, the error
detail of the JSON body when not ok, and the parsed data when ok. -/
structure HttpResponse where
  ok : Bool
  detail : Option String
  data : JoinData
deriving DecidableEq

/-- Embedding of joinSession from api.js: reject with the error detail of
the body (or the default message when the detail is absent or empty)
exactly when the response is not ok, else return the parsed data. -/
def joinSession (resp : HttpResponse) : Except String JoinData :=
  if resp.ok then Except.ok resp.data
  else Except.error (jsOrStr resp.detail "Failed to join session")

/-- The readyState value of an open browser WebSocket (WebSocket.OPEN). -/
def wsOPEN : Nat := 1

/-- The readyState value of a closed browser WebSocket (WebSocket.CLOSED). -/
def wsCLOSED : Nat := 3

/-- The ping interval of useWebSocket.js, in milliseconds. -/
def pingIntervalMs : Nat := 30000

/-- An outgoing WebSocket frame: a JSON object with a type field. -/
structure OutMessage where
  type : String
deriving DecidableEq

/-- The liveness ping frame sent by the interval callback. -/
def pingMessage : OutMessage := ⟨"ping"⟩

/-- The connection state of the useWebSocket hook that governs pinging:
the readyState of the underlying socket, whether the ping interval timer
is registered, and the isConnected flag. -/
structure WsClientState where
  readyState : Nat
  pingTimerActive : Bool
  isConnected : Bool
deriving DecidableEq

/-- Occurrences driving the hook: the open event, a firing of the ping
interval timer, the close event and the error event. -/
inductive WsEvent where
  | onOpen
  | pingTick
  | onClose
  | onError
deriving DecidableEq

/-- Embedding of the useWebSocket callbacks (useWebSocket.js): onopen sets
the connected flag and registers the ping interval; each firing of the
interval sends exactly one ping frame, and only when the socket readyState
is OPEN; onclose clears the interval before scheduling a reconnect;
onerror only clears the connected flag. A firing of a cleared timer is a
no-op. -/
def wsStep (st : WsClientState) (e : WsEvent) : WsClientState × Option OutMessage :=
  match e with
  | WsEvent.onOpen => (⟨wsOPEN, true, true⟩, none)
  | WsEvent.pingTick =>
    if st.pingTimerActive then
      (st, if st.readyState == wsOPEN then some pingMessage else none)
    else (st, none)
  | WsEvent.onClose => (⟨wsCLOSED, false, false⟩, none)
  | WsEvent.onError => ({ st with isConnected := false }, none)

/-- Number of ping frames sent along a sequence of hook events. -/
def wsPingCount (st : WsClientState) : List WsEvent → Nat
  | [] => 0
  | e :: es =>
    (if (wsStep st e).2.isSome then 1 else 0) + wsPingCount (wsStep st e).1 es

/-- Encryption configuration fetched from the server: passphrase and salt
(encryption.js). -/
structure EncryptionConfig where
  passphrase : String
  salt : String
deriving DecidableEq

/-- The external CryptoJS collaborator as an interface: PBKDF2 key
derivation and the AES cipher. Decrypting and decoding the result as Utf8
can fail on malformed input, hence the optional result. The repository
code is embedded over an arbitrary instance of this interface. -/
structure CryptoProvider where
  pbkdf2 : String → String → String
  aesEncrypt : String → String → String
  aesDecrypt : String → String → Option String

/-- The key derivation that both encrypt and decrypt perform: PBKDF2 over
the configured passphrase and salt (keySize 256/32, iterations 1000). -/
def deriveKey (cp : CryptoProvider) (cfg : EncryptionConfig) : String :=
  cp.pbkdf2 cfg.passphrase cfg.salt

/-- Embedding of encrypt from encryption.js: throws when encryption has
not been initialized, else AES-encrypts under the PBKDF2-derived key. -/
def encrypt (cp : CryptoProvider) (cfg : Option EncryptionConfig) (data : String) :
    Except String String :=
  match cfg with
  | none => Except.error "Encryption not initialized"
  | some c => Except.ok (cp.aesEncrypt (deriveKey cp c) data)

/-- Embedding of decrypt from encryption.js: throws when encryption has
not been initialized, else AES-decrypts under the PBKDF2-derived key;
decoding the result as Utf8 can itself throw, which the optional provider
result models. -/
def decrypt (cp : CryptoProvider) (cfg : Option EncryptionConfig) (encryptedData : String) :
    Except String String :=
  match cfg with
  | none => Except.error "Encryption not initialized"
  | some c =>
    match cp.aesDecrypt (deriveKey cp c) encryptedData with
    | some plain => Except.ok plain
    | none => Except.error "Malformed UTF-8 data"

/-- Embedding of downloadBlock from api.js, after the fetch has succeeded
with the given body text: try to decrypt as text, and on any decryption
error resolve with the raw fetched text instead. -/
def downloadBlock (cp : CryptoProvider) (cfg : Option EncryptionConfig) (body : String) :
    String :=
  match decrypt cp cfg body with
  | Except.ok t => t
  | Except.error _ => body

/-- The double quote character. -/
def dquote : Char := Char.ofNat 34

/-- The single quote character. -/
def squote : Char := Char.ofNat 39

/-- JavaScript regex whitespace: the ASCII whitespace characters matched
by the whitespace class of the url regex in config.js. -/
def jsWhitespace (c : Char) : Bool :=
  c == ' ' || c == '\t' || c == '\n' || c == '\r' || c == Char.ofNat 11 || c == Char.ofNat 12

/-- The character class of the url value in the config regex: any
character except a double quote, a single quote and a newline. -/
def urlValueChar (c : Char) : Bool :=
  !(c == dquote || c == squote || c == '\n')

/-- One backtracking attempt of the config regex tail after the whitespace
run has been fixed: an optional opening quote (consumed when present, as
the regex engine prefers) followed by a greedy run of at least one value
character, which is the captured group. -/
def tryCapture : List Char → Option (List Char)
  | [] => none
  | c :: rest =>
    if c == dquote || c == squote then
      match rest with
      | [] => none
      | d :: _ => if urlValueChar d then some (rest.takeWhile urlValueChar) else none
    else if urlValueChar c then some ((c :: rest).takeWhile urlValueChar)
    else none

/-- Backtracking over the greedy whitespace run of the config regex: try
the attempt after w consumed whitespace characters first, then ever
shorter runs, as the regex engine does for a greedy star. -/
def tryFromWs : Nat → List Char → Option (List Char)
  | 0, r => tryCapture r
  | w + 1, r =>
    match tryCapture (r.drop (w + 1)) with
    | some cap => some cap
    | none => tryFromWs w r

/-- Match the tail of the config regex right after a url: literal,
returning the captured group. -/
def matchUrlTail (r : List Char) : Option (List Char) :=
  tryFromWs (r.takeWhile jsWhitespace).length r

/-- Leftmost-match scan of the config url regex from config.js over the
body text: the first position where the literal url: followed by the
matching tail occurs determines the captured group. -/
def findUrlCapture : List Char → Option (List Char)
  | 'u' :: 'r' :: 'l' :: ':' :: tail =>
    (match matchUrlTail tail with
     | some cap => some cap
     | none => findUrlCapture ('r' :: 'l' :: ':' :: tail))
  | _ :: rest => findUrlCapture rest
  | [] => none

/-- JavaScript String.trim: remove whitespace from both ends. -/
def jsTrim (l : List Char) : List Char :=
  ((l.dropWhile jsWhitespace).reverse.dropWhile jsWhitespace).reverse

/-- Outcome of one candidate config.yaml fetch: a thrown network error, or
a response with its ok flag and body text. -/
inductive FetchOutcome where
  | failure
  | response (ok : Bool) (body : String)
deriving DecidableEq

/-- The loop of initConfig over the candidate config locations: the first
ok response whose body matches the url regex determines the backend URL as
the trimmed captured group; failed fetches, error responses and bodies
with no match fall through to the next candidate. -/
def scanConfigSources : List FetchOutcome → Option String
  | [] => none
  | FetchOutcome.failure :: rest => scanConfigSources rest
  | FetchOutcome.response ok body :: rest =>
    if ok then
      match findUrlCapture body.data with
      | some cap => some (String.mk (jsTrim cap))
      | none => scanConfigSources rest
    else scanConfigSources rest

/-- The hard-coded fallback backend URL of initConfig. -/
def defaultBackendUrl : String := "http://localhost:8123"

/-- Embedding of initConfig from config.js, over the outcomes of the
candidate fetches and the VITE_API_URL environment value: the first
matching config body wins, otherwise the environment value when truthy,
otherwise the default. The result is also stored in the module-level
backendUrl variable. -/
def initConfig (results : List FetchOutcome) (envApiUrl : Option String) : String :=
  match scanConfigSources results with
  | some u => u
  | none => jsOrStr envApiUrl defaultBackendUrl

/-- Embedding of getBackendUrl from config.js: throws when the stored
backendUrl is still null or otherwise falsy (the empty string), returns it
otherwise. -/
def getBackendUrl (backendUrl : Option String) : Except String String :=
  match backendUrl with
  | none => Except.error "Config not initialized. Call initConfig() first."
  | some u =>
    if u != "" then Except.ok u
    else Except.error "Config not initialized. Call initConfig() first."

/-- Setting every host flag to the comparison with a target id leaves as
many hosts as occurrences of the target among the user ids. -/
theorem hostCount_map_set (us : List User) (t : Nat) :
    hostCount (us.map (fun u => { u with is_host := u.id == t })) = (us.map User.id).count t := by
  induction us with
  | nil => rfl
  | cons u us ih =>
    by_cases h : u.id = t <;>
      simp_all [hostCount, List.filter_cons, List.count_cons, h]

/-- When exactly one user carries the host flag, any two host-flagged
members coincide. -/
theorem host_unique_of_hostCount_one (us : List User) (h1 : hostCount us = 1)
    (w : User) (hw : w ∈ us) (hwh : w.is_host = true) :
    ∀ u ∈ us, u.is_host = true → u = w := by
  intro u hu huh
  have h2 := h1
  unfold hostCount at h2
  obtain ⟨a, ha⟩ := List.length_eq_one.mp h2
  have hu2 : u ∈ us.filter (fun x => x.is_host) := List.mem_filter.mpr ⟨hu, huh⟩
  have hw2 : w ∈ us.filter (fun x => x.is_host) := List.mem_filter.mpr ⟨hw, hwh⟩
  rw [ha] at hu2 hw2
  simp at hu2 hw2
  rw [hu2, hw2]

/-- Claim C1: exactly one user has the host flag at any observable point;
in particular, after the client processes a host_transferred event whose
new_host_id names a current member, exactly that user has is_host true and
every other host flag is false. On the spec-modelled backend, a successful
transferHost preserves the unique-host invariant, flips exactly the two
users named by the requester and the target, records the new host id and
emits one host_transferred event carrying it. -/
theorem host_transfer_exactly_one_host (myId : Nat) (st : ClientState) (msg : WsMessage)
    (s : Session) (r t now : Nat) (s' : Session) (ev : SEvent)
    (hty : msg.type = "host_transferred")
    (hcnodup : (st.users.map User.id).Nodup)
    (hcmem : msg.new_host_id ∈ st.users.map User.id)
    (hsnodup : (s.users.map User.id).Nodup)
    (hinv : hostCount s.users = 1)
    (hrt : r ≠ t)
    (hok : s.transferHost r t now = Except.ok (s', ev)) :
    (hostCount (handleWebSocketMessage myId st msg).1.users = 1
     ∧ (∀ u ∈ (handleWebSocketMessage myId st msg).1.users,
          u.is_host = (u.id == msg.new_host_id))
     ∧ (handleWebSocketMessage myId st msg).1.session.host_id = msg.new_host_id)
    ∧ (hostCount s'.users = 1
       ∧ (∀ u ∈ s'.users, u.is_host = (u.id == t))
       ∧ s'.host_id = t
       ∧ ev = SEvent.host_transferred t
       ∧ (∀ u ∈ s.users, (¬ u.is_host = (u.id == t)) ↔ (u.id = r ∨ u.id = t))) := by
  have hres : (handleWebSocketMessage myId st msg).1.users =
      st.users.map (fun u => { u with is_host := u.id == msg.new_host_id }) := by
    simp [handleWebSocketMessage, hty]
  unfold Session.transferHost at hok
  by_cases h1 : s.users.any (fun u => u.id == r && u.is_host)
  swap
  · simp [h1] at hok
  by_cases h2 : s.users.any (fun u => u.id == t)
  swap
  · simp [h1, h2] at hok
  simp only [h1, h2, if_true, Except.ok.injEq, Prod.mk.injEq] at hok
  obtain ⟨hs', hev⟩ := hok
  obtain ⟨w, hwmem, hw⟩ := List.any_eq_true.mp h1
  have hw2 : w.id = r ∧ w.is_host = true := by simpa using hw
  have huniq := host_unique_of_hostCount_one s.users hinv w hwmem hw2.2
  have hinj := List.inj_on_of_nodup_map hsnodup
  have htmem : t ∈ s.users.map User.id := by
    obtain ⟨v, hv, hvt⟩ := List.any_eq_true.mp h2
    exact List.mem_map.mpr ⟨v, hv, by simpa using hvt⟩
  have hflag : ∀ u ∈ s.users, u.is_host = true ↔ u.id = r := by
    intro u hu
    constructor
    · intro hh
      rw [huniq u hu hh]
      exact hw2.1
    · intro hh
      have : u = w := hinj hu hwmem (by rw [hh, hw2.1])
      rw [this]
      exact hw2.2
  have key : ∀ u ∈ s.users,
      (if u.id == r then { u with is_host := false }
       else if u.id == t then { u with is_host := true } else u) =
      { u with is_host := u.id == t } := by
    intro u hu
    by_cases hur : u.id = r
    · simp [hur]
      exact hrt
    · by_cases hut : u.id = t
      · simp [hur, hut]
        exact fun hh => hrt hh.symm
      · have hf : u.is_host = false := by
          rcases Bool.eq_false_or_eq_true u.is_host with h | h
          · exact absurd ((hflag u hu).mp h) hur
          · exact h
        have hft : (u.id == t) = false := by simpa using hut
        simp [hur, hut, hft]
        cases u
        simp_all
  have husers : s'.users = s.users.map (fun u => { u with is_host := u.id == t }) := by
    rw [← hs']
    exact List.map_congr_left key
  refine ⟨⟨?_, ?_, ?_⟩, ?_, ?_, ?_, ?_, ?_⟩
  · rw [hres, hostCount_map_set]
    exact List.count_eq_one_of_mem hcnodup hcmem
  · intro u hu
    rw [hres] at hu
    obtain ⟨v, hv, hvu⟩ := List.mem_map.mp hu
    rw [← hvu]
  · simp [handleWebSocketMessage, hty]
  · rw [husers, hostCount_map_set]
    exact List.count_eq_one_of_mem hsnodup htmem
  · intro u hu
    rw [husers] at hu
    obtain ⟨v, hv, hvu⟩ := List.mem_map.mp hu
    rw [← hvu]
  · rw [← hs']
  · exact hev.symm
  · intro u hu
    by_cases hur : u.id = r
    · have hh : u.is_host = true := (hflag u hu).mpr hur
      have hf : (u.id == t) = false := by
        rw [hur]
        simpa using hrt
      simp [hh, hf, hur]
      exact hrt
    · by_cases hut : u.id = t
      · have hf : u.is_host = false := by
          rcases Bool.eq_false_or_eq_true u.is_host with h | h
          · exact absurd ((hflag u hu).mp h) hur
          · exact h
        simp [hf, hut]
      · have hf : u.is_host = false := by
          rcases Bool.eq_false_or_eq_true u.is_host with h | h
          · exact absurd ((hflag u hu).mp h) hur
          · exact h
        have hft : (u.id == t) = false := by simpa using hut
        simp [hf, hft, hur, hut]

/-- Witness for claim C1 at a two-member session: after the backend
transfer from user 1 to user 2, exactly one of the two carries the host
flag. -/
theorem host_transfer_exactly_one_host_witness :
    hostCount [User.mk 1 "alice" false, User.mk 2 "bob" true] = 1 :=
  (host_transfer_exactly_one_host 0
    ⟨[⟨1, "alice", true⟩, ⟨2, "bob", false⟩], [], ⟨1, true⟩⟩
    ⟨"host_transferred", ⟨0, "", false⟩, 0, ⟨0, "", ""⟩, 0, 2, true⟩
    ⟨1, true, 0, 0, [⟨1, "alice", true⟩, ⟨2, "bob", false⟩], Ledger.empty⟩ 1 2 5
    ⟨2, true, 0, 5, [⟨1, "alice", false⟩, ⟨2, "bob", true⟩], Ledger.empty⟩
    (SEvent.host_transferred 2)
    rfl (by decide) (by decide) (by decide) (by decide) (by decide) rfl).2.1

/-- Claim C4: processing a block_deleted event carrying block id b removes
exactly the blocks whose id equals b from the ordered block list, keeps
every other block in its original relative order, leaves users and session
unchanged, and produces no side effect. -/
theorem block_deleted_event_effect (myId : Nat) (st : ClientState) (msg : WsMessage)
    (hty : msg.type = "block_deleted") :
    (handleWebSocketMessage myId st msg).1.users = st.users
    ∧ (handleWebSocketMessage myId st msg).1.session = st.session
    ∧ (handleWebSocketMessage myId st msg).1.blocks.Sublist st.blocks
    ∧ (∀ b, b ∈ (handleWebSocketMessage myId st msg).1.blocks ↔
        b ∈ st.blocks ∧ b.id ≠ msg.block_id)
    ∧ (handleWebSocketMessage myId st msg).2 = [] := by
  simp [handleWebSocketMessage, hty, List.mem_filter, List.filter_sublist]

/-- Witness for claim C4 at a two-block state: deleting block 2 keeps the
users list intact. -/
theorem block_deleted_event_effect_witness :
    (handleWebSocketMessage 7
      ⟨[⟨1, "alice", true⟩], [⟨1, "text", "aa"⟩, ⟨2, "text", "bb"⟩], ⟨1, true⟩⟩
      ⟨"block_deleted", ⟨0, "", false⟩, 0, ⟨0, "", ""⟩, 2, 0, true⟩).1.users =
    [⟨1, "alice", true⟩] :=
  (block_deleted_event_effect 7
    ⟨[⟨1, "alice", true⟩], [⟨1, "text", "aa"⟩, ⟨2, "text", "bb"⟩], ⟨1, true⟩⟩
    ⟨"block_deleted", ⟨0, "", false⟩, 0, ⟨0, "", ""⟩, 2, 0, true⟩ rfl).1

/-- Claim C5: the real-time dispatch is a closed tagged variant: a pong is
filtered out before dispatch, every one of the seven event tags is
recognised by the closed variant of event kinds, any tag outside the
taxonomy is not recognised, and a message with such a tag leaves the
client users, blocks and session state unchanged and produces no
effect. -/
theorem ws_dispatch_closed_variant :
    (∀ myId st msg, msg.type = "pong" → onSocketMessage myId st msg = (st, []))
    ∧ (∀ k : EventKind, parseEventTag (eventTag k) = some k ∧ eventTag k ∈ eventTypes)
    ∧ (∀ s, parseEventTag s = none ↔ s ∉ eventTypes)
    ∧ (∀ myId st msg, msg.type ∉ eventTypes →
        onSocketMessage myId st msg = (st, [])
        ∧ handleWebSocketMessage myId st msg = (st, [])) := by
  refine ⟨?_, ?_, ?_, ?_⟩
  · intro myId st msg h
    simp [onSocketMessage, h]
  · intro k
    cases k <;> simp [parseEventTag, eventTag, eventTypes]
  · intro s
    unfold parseEventTag eventTypes
    split_ifs with h1 h2 h3 h4 h5 h6 h7 <;> simp_all
  · intro myId st msg h
    simp only [eventTypes, List.mem_cons, List.not_mem_nil, or_false, not_or] at h
    obtain ⟨h1, h2, h3, h4, h5, h6, h7⟩ := h
    constructor
    · simp [onSocketMessage, handleWebSocketMessage, h1, h2, h3, h4, h5, h6, h7]
    · simp [handleWebSocketMessage, h1, h2, h3, h4, h5, h6, h7]

/-- Witness for claim C5: a message of the unknown type misc at a concrete
one-user state is dropped without touching the state. -/
theorem ws_dispatch_closed_variant_witness :
    onSocketMessage 7
      ⟨[⟨1, "alice", true⟩], [], ⟨1, true⟩⟩
      ⟨"misc", ⟨0, "", false⟩, 0, ⟨0, "", ""⟩, 0, 0, true⟩ =
    (⟨[⟨1, "alice", true⟩], [], ⟨1, true⟩⟩, []) :=
  (ws_dispatch_closed_variant.2.2.2 7
    ⟨[⟨1, "alice", true⟩], [], ⟨1, true⟩⟩
    ⟨"misc", ⟨0, "", false⟩, 0, ⟨0, "", ""⟩, 0, 0, true⟩ (by decide)).1

/-- Claim C2: on the spec-modelled backend, join fails NotFound for an
unknown session id and JoinDisabled when allow_join is false, and a
successful join returns a non-host user; the client joinSession rejects,
surfacing the error detail of the response, exactly when the response is
not ok, and resolves with the parsed data otherwise. -/
theorem join_contract :
    (∀ (reg : Registry) sid uid name now, lookupSession reg sid = none →
        Registry.join reg sid uid name now = Except.error ApiError.NotFound)
    ∧ (∀ (reg : Registry) sid uid name now s, lookupSession reg sid = some s →
        s.allow_join = false →
        Registry.join reg sid uid name now = Except.error ApiError.JoinDisabled)
    ∧ (∀ (reg : Registry) sid uid name now reg' u,
        Registry.join reg sid uid name now = Except.ok (reg', u) → u.is_host = false)
    ∧ (∀ resp : HttpResponse, resp.ok = false →
        joinSession resp = Except.error (jsOrStr resp.detail "Failed to join session"))
    ∧ (∀ resp : HttpResponse, resp.ok = true → joinSession resp = Except.ok resp.data)
    ∧ (∀ resp : HttpResponse, (∃ e, joinSession resp = Except.error e) ↔ resp.ok = false) := by
  refine ⟨?_, ?_, ?_, ?_, ?_, ?_⟩
  · intro reg sid uid name now h
    unfold Registry.join
    rw [h]
  · intro reg sid uid name now s h ha
    unfold Registry.join
    rw [h]
    simp [ha]
  · intro reg sid uid name now reg' u h
    unfold Registry.join at h
    cases hl : lookupSession reg sid with
    | none => rw [hl] at h; simp at h
    | some s =>
      rw [hl] at h
      by_cases ha : s.allow_join
      · simp [ha] at h
        rw [← h.2]
      · simp [ha] at h
  · intro resp h
    unfold joinSession
    rw [h]
    simp
  · intro resp h
    unfold joinSession
    rw [h]
    simp
  · intro resp
    unfold joinSession
    by_cases h : resp.ok <;> simp [h]

/-- Witness for claim C2: a not-ok response with a detail field makes the
client joinSession reject with exactly that detail. -/
theorem join_contract_witness :
    joinSession ⟨false, some "Session not found", ⟨"abcdef", 1, "bob", false⟩⟩ =
      Except.error "Session not found" :=
  join_contract.2.2.2.1 ⟨false, some "Session not found", ⟨"abcdef", 1, "bob", false⟩⟩ rfl

/-- Along any ledger trace, every assigned block id is at least the
starting nextId and the assigned ids are pairwise strictly increasing in
order of assignment. -/
theorem runLedger_ids_increasing (maxSize : Nat) (ops : List LedgerOp) :
    ∀ l : Ledger, (∀ i ∈ (runLedger maxSize l ops).2, l.nextId ≤ i)
      ∧ (runLedger maxSize l ops).2.Pairwise (· < ·) := by
  induction ops with
  | nil => intro l; simp [runLedger]
  | cons op ops ih =>
    intro l
    cases op with
    | append k size creator now =>
      by_cases h : k = BlockKind.file ∧ maxSize < size
      · have hstep : runLedger maxSize l (LedgerOp.append k size creator now :: ops) =
            runLedger maxSize l ops := by
          simp [runLedger, Ledger.appendBlock, h]
        rw [hstep]
        exact ih l
      · have hstep : runLedger maxSize l (LedgerOp.append k size creator now :: ops) =
            ((runLedger maxSize ⟨l.nextId + 1, l.blocks ++ [⟨l.nextId, k, size, creator, now⟩]⟩ ops).1,
             l.nextId :: (runLedger maxSize ⟨l.nextId + 1, l.blocks ++ [⟨l.nextId, k, size, creator, now⟩]⟩ ops).2) := by
          simp [runLedger, Ledger.appendBlock, h]
        rw [hstep]
        obtain ⟨iha, ihb⟩ := ih ⟨l.nextId + 1, l.blocks ++ [⟨l.nextId, k, size, creator, now⟩]⟩
        constructor
        · intro i hi
          rcases List.mem_cons.mp hi with hi | hi
          · omega
          · have := iha i hi
            simp at this
            omega
        · refine List.pairwise_cons.mpr ⟨?_, ihb⟩
          intro i hi
          have := iha i hi
          simp at this
          omega
    | remove bid =>
      by_cases h : l.blocks.any (fun b => b.id == bid)
      · have hstep : runLedger maxSize l (LedgerOp.remove bid :: ops) =
            runLedger maxSize ⟨l.nextId, l.blocks.filter (fun b => b.id != bid)⟩ ops := by
          simp [runLedger, Ledger.removeBlock, h]
        rw [hstep]
        exact ih ⟨l.nextId, l.blocks.filter (fun b => b.id != bid)⟩
      · have hstep : runLedger maxSize l (LedgerOp.remove bid :: ops) =
            runLedger maxSize l ops := by
          simp [runLedger, Ledger.removeBlock, h]
        rw [hstep]
        exact ih l

/-- Claim C3: within one session, the block ids assigned by append along
any sequence of appends and removals are strictly increasing over the
lifetime of the session, so no id is ever assigned twice; in particular an
id is never reused after the block bearing it has been deleted. -/
theorem block_ids_strictly_increasing (maxSize : Nat) (ops : List LedgerOp) :
    (runLedger maxSize Ledger.empty ops).2.Pairwise (· < ·)
    ∧ (runLedger maxSize Ledger.empty ops).2.Nodup :=
  ⟨(runLedger_ids_increasing maxSize ops Ledger.empty).2,
   List.Pairwise.imp (fun h => Nat.ne_of_lt h)
     (runLedger_ids_increasing maxSize ops Ledger.empty).2⟩

/-- Claim C6: every registered session whose last-activity timestamp has
not been refreshed within the configured threshold is removed from the
spec-modelled registry by the sweep, and a subsequent get on its id fails
NotFound. -/
theorem idle_session_evicted (reg : Registry) (sid : String) (now threshold : Nat)
    (hidle : ∀ s : Session, (sid, s) ∈ reg → threshold < now - s.last_activity) :
    lookupSession (Registry.sweep reg now threshold) sid = none
    ∧ Registry.get (Registry.sweep reg now threshold) sid = Except.error ApiError.NotFound := by
  have hfind : (Registry.sweep reg now threshold).find? (fun p => p.1 == sid) = none := by
    rw [List.find?_eq_none]
    intro p hp hps
    have hm := List.mem_filter.mp hp
    have hle : now - p.2.last_activity ≤ threshold := by simpa using hm.2
    have hps2 : p.1 = sid := by simpa using hps
    have hmem : (sid, p.2) ∈ reg := by
      rw [← hps2]
      simpa using hm.1
    have := hidle p.2 hmem
    omega
  have hl : lookupSession (Registry.sweep reg now threshold) sid = none := by
    unfold lookupSession
    rw [hfind]
  exact ⟨hl, by unfold Registry.get; rw [hl]⟩

/-- Witness for claim C6: a one-session registry idle for 4000 ms beyond a
3600 ms threshold no longer resolves its id after the sweep. -/
theorem idle_session_evicted_witness :
    lookupSession
      (Registry.sweep [("abcdef", ⟨1, true, 0, 0, [⟨1, "alice", true⟩], Ledger.empty⟩)] 4000 3600)
      "abcdef" = none :=
  (idle_session_evicted [("abcdef", ⟨1, true, 0, 0, [⟨1, "alice", true⟩], Ledger.empty⟩)]
    "abcdef" 4000 3600
    (by
      intro s hs
      simp at hs
      rw [hs]
      decide)).1

/-- With the ping interval cleared, no ping frame is sent along any event
sequence that does not reopen the connection. -/
theorem wsPingCount_timer_off (es : List WsEvent) :
    ∀ st : WsClientState, st.pingTimerActive = false → WsEvent.onOpen ∉ es →
      wsPingCount st es = 0 := by
  induction es with
  | nil => intro st h1 h2; rfl
  | cons e es ih =>
    intro st h1 h2
    simp only [List.mem_cons, not_or] at h2
    cases e with
    | onOpen => exact absurd rfl h2.1
    | pingTick =>
      simp [wsPingCount, wsStep, h1]
      exact ih st h1 h2.2
    | onClose =>
      simp [wsPingCount, wsStep]
      exact ih _ rfl h2.2
    | onError =>
      simp [wsPingCount, wsStep]
      exact ih _ h1 h2.2

/-- Claim C7: the hook pings on the fixed 30000 ms interval: while the
connection is open every firing of the registered interval sends exactly
one ping frame; a ping is only ever sent at an interval firing with the
socket in the OPEN state; and after the close event no ping is sent until
the connection is reopened. -/
theorem ping_interval_contract :
    pingIntervalMs = 30000
    ∧ (∀ st : WsClientState, st.pingTimerActive = true → st.readyState = wsOPEN →
        (wsStep st WsEvent.pingTick).2 = some pingMessage)
    ∧ (∀ (st : WsClientState) (e : WsEvent), ((wsStep st e).2).isSome = true →
        e = WsEvent.pingTick ∧ st.readyState = wsOPEN ∧ st.pingTimerActive = true
        ∧ (wsStep st e).2 = some pingMessage)
    ∧ (∀ (st : WsClientState) (es : List WsEvent), WsEvent.onOpen ∉ es →
        wsPingCount (wsStep st WsEvent.onClose).1 es = 0) := by
  refine ⟨rfl, ?_, ?_, ?_⟩
  · intro st h1 h2
    simp [wsStep, h1, h2]
  · intro st e h
    cases e with
    | onOpen => simp [wsStep] at h
    | onClose => simp [wsStep] at h
    | onError => simp [wsStep] at h
    | pingTick =>
      by_cases h1 : st.pingTimerActive
      · by_cases h2 : st.readyState = wsOPEN
        · exact ⟨rfl, h2, h1, by simp [wsStep, h1, h2]⟩
        · simp [wsStep, h1, h2] at h
      · simp [wsStep, h1] at h
  · intro st es h
    exact wsPingCount_timer_off es _ rfl h

/-- Witness for claim C7: at an open state with the interval registered,
one interval firing sends the ping frame. -/
theorem ping_interval_contract_witness :
    (wsStep ⟨wsOPEN, true, true⟩ WsEvent.pingTick).2 = some pingMessage :=
  ping_interval_contract.2.1 ⟨wsOPEN, true, true⟩ rfl rfl

/-- Claim C8: once initEncryption has set the configuration, decrypt
inverts encrypt for every string, because both derive the same key from
the same passphrase and salt and the external AES cipher round-trips
under equal keys; and both encrypt and decrypt throw exactly the
not-initialized error whenever the configuration is unset, while an
initialized encrypt never throws. -/
theorem encrypt_decrypt_roundtrip (cp : CryptoProvider)
    (hrt : ∀ k m, cp.aesDecrypt k (cp.aesEncrypt k m) = some m) :
    (∀ (c : EncryptionConfig) (s : String),
        encrypt cp (some c) s = Except.ok (cp.aesEncrypt (deriveKey cp c) s)
        ∧ decrypt cp (some c) (cp.aesEncrypt (deriveKey cp c) s) = Except.ok s)
    ∧ (∀ s, encrypt cp none s = Except.error "Encryption not initialized"
        ∧ decrypt cp none s = Except.error "Encryption not initialized") := by
  constructor
  · intro c s
    constructor
    · rfl
    · simp [decrypt, hrt]
  · intro s
    exact ⟨rfl, rfl⟩

/-- Witness for claim C8 at a concrete provider whose cipher is the
identity on the message: decrypting the encryption of hello yields
hello. -/
theorem encrypt_decrypt_roundtrip_witness :
    decrypt ⟨fun p s => p ++ s, fun _ m => m, fun _ m => some m⟩
      (some ⟨"pass", "salt"⟩)
      (CryptoProvider.aesEncrypt ⟨fun p s => p ++ s, fun _ m => m, fun _ m => some m⟩
        (deriveKey ⟨fun p s => p ++ s, fun _ m => m, fun _ m => some m⟩ ⟨"pass", "salt"⟩)
        "hello") = Except.ok "hello" :=
  ((encrypt_decrypt_roundtrip ⟨fun p s => p ++ s, fun _ m => m, fun _ m => some m⟩
    (fun _ _ => rfl)).1 ⟨"pass", "salt"⟩ "hello").2

/-- Claim C9: downloadBlock never rejects because of a decryption failure:
when decrypt succeeds on the fetched body it resolves with the decrypted
text, and when decrypt throws it resolves with the raw body, so a
successful fetch always yields a string. -/
theorem downloadBlock_total (cp : CryptoProvider) (cfg : Option EncryptionConfig)
    (body : String) :
    (∀ t, decrypt cp cfg body = Except.ok t → downloadBlock cp cfg body = t)
    ∧ (∀ e, decrypt cp cfg body = Except.error e → downloadBlock cp cfg body = body) := by
  constructor <;> intro x h <;> unfold downloadBlock <;> rw [h]

/-- Witness for claim C9: with encryption uninitialized, decrypt throws
and downloadBlock resolves with the raw body. -/
theorem downloadBlock_total_witness :
    downloadBlock ⟨fun p s => p ++ s, fun _ m => m, fun _ m => some m⟩ none "payload"
      = "payload" :=
  (downloadBlock_total ⟨fun p s => p ++ s, fun _ m => m, fun _ m => some m⟩ none "payload").2
    "Encryption not initialized" rfl

/-- Counterexample to claim C10 as stated: a successful config fetch whose
body carries an empty quoted url value makes the regex capture a blank
that trims to the empty string, so initConfig resolves with the empty
string, and getBackendUrl then throws even though initConfig has completed
and stored the URL. -/
theorem initConfig_empty_url_counterexample :
    initConfig [FetchOutcome.response true "url: \"\""] none = ""
    ∧ getBackendUrl (some (initConfig [FetchOutcome.response true "url: \"\""] none)) =
        Except.error "Config not initialized. Call initConfig() first." :=
  ⟨rfl, rfl⟩

/-- Claim C10 as amended: initConfig always resolves with a string: the
trimmed captured url value when some candidate config matches, and
otherwise the fallback of the environment value or the default, which is
always non-empty; getBackendUrl returns the stored URL exactly when it is
set and non-empty and throws otherwise. -/
theorem initConfig_contract :
    (∀ env, jsOrStr env defaultBackendUrl ≠ "")
    ∧ (∀ results env, scanConfigSources results = none →
        initConfig results env = jsOrStr env defaultBackendUrl)
    ∧ (∀ results env u, scanConfigSources results = some u →
        initConfig results env = u)
    ∧ (∀ u, getBackendUrl (some u) = Except.ok u ↔ u ≠ "")
    ∧ getBackendUrl none = Except.error "Config not initialized. Call initConfig() first." := by
  refine ⟨?_, ?_, ?_, ?_, rfl⟩
  · intro env
    cases env with
    | none => simp [jsOrStr, defaultBackendUrl]
    | some v =>
      by_cases h : v = "" <;> simp [jsOrStr, h, defaultBackendUrl]
  · intro results env h
    unfold initConfig
    rw [h]
  · intro results env u h
    unfold initConfig
    rw [h]
  · intro u
    constructor
    · intro h he
      rw [he] at h
      simp [getBackendUrl] at h
    · intro h
      simp [getBackendUrl, h]

/-- Witness for claim C10 as amended: with no candidate fetch succeeding,
initConfig resolves with the fallback value. -/
theorem initConfig_contract_witness :
    initConfig [] none = jsOrStr none defaultBackendUrl :=
  initConfig_contract.2.1 [] none rfl

end Clippy
